import Mathlib

/-!
Shallow embedding of the vc4 HDMI encoder driver
(`drivers/gpu/drm/vc4/vc4_hdmi.c`): configuration negotiation,
clock validation, timing/GCP programming, infoframe packing,
power sequencing, scrambling control and audio clock recovery.

Machine integers are modelled as `Nat`; the C code involved never
overflows 64-bit quantities on the value ranges of interest, and
divisions (`do_div`, C integer division) are Nat truncating division.
-/

namespace VC4

/-- Constant `#define HDMI_14_MAX_TMDS_CLK (340 * 1000 * 1000)` (vc4_hdmi.c line 106). -/
def HDMI_14_MAX_TMDS_CLK : Nat := 340 * 1000 * 1000

/-- Enum `enum vc4_hdmi_output_format` (vc4_hdmi.h): RGB, YUV444, YUV422, YUV420. -/
inductive OutputFormat where
  | RGB
  | YUV422
  | YUV444
  | YUV420
deriving DecidableEq, Repr

/-- The slice of `struct drm_display_mode` the encoder logic reads:
pixel clock in kHz, the DBLCLK flag, horizontal geometry, and the
result of the external CEA matcher `drm_match_cea_mode` (`vic`),
which is an input supplied by the DRM core collaborator. -/
structure DisplayMode where
  clock : Nat
  dblclk : Bool
  vic : Nat
  hdisplay : Nat
  hsync_start : Nat
  hsync_end : Nat
  htotal : Nat
deriving DecidableEq, Repr

/-- The slice of `struct drm_display_info` (sink capability snapshot
produced by the EDID collaborator) read by the encoder: color format
support bits, deep-color bits per format family, max TMDS clock in
kHz, the is-HDMI flag, and SCDC/scrambling support. -/
structure DisplayInfo where
  is_hdmi : Bool
  rgb444 : Bool
  ycbcr422 : Bool
  ycbcr444 : Bool
  rgb444_dc30 : Bool
  rgb444_dc36 : Bool
  ycbcr444_dc30 : Bool
  ycbcr444_dc36 : Bool
  max_tmds_clock : Nat
  scdc_supported : Bool
  scrambling_supported : Bool
deriving DecidableEq, Repr

/-- The slice of `struct vc4_hdmi` (with its variant descriptor and
connector display info flattened in) used by negotiation and the
atomic check. -/
structure Vc4Hdmi where
  max_pixel_clock : Nat
  unsupported_odd_h_timings : Bool
  disable_4kp60 : Bool
  disable_wifi_frequencies : Bool
  info : DisplayInfo
deriving DecidableEq, Repr

/-- Function `vc4_hdmi_sink_supports_format_bpc` (vc4_hdmi.c lines 1392-1474),
translated check for check. -/
def vc4_hdmi_sink_supports_format_bpc (info : DisplayInfo) (mode : DisplayMode)
    (format : OutputFormat) (bpc : Nat) : Bool :=
  if mode.vic == 1 && bpc != 8 then
    false
  else if !info.is_hdmi && !(format == .RGB && bpc == 8) then
    false
  else
    match format with
    | .RGB =>
      if !info.rgb444 then false
      else if bpc == 10 && !info.rgb444_dc30 then false
      else if bpc == 12 && !info.rgb444_dc36 then false
      else true
    | .YUV422 =>
      if !info.ycbcr422 then false
      else if bpc != 12 then false
      else true
    | .YUV444 =>
      if !info.ycbcr444 then false
      else if bpc == 10 && !info.ycbcr444_dc30 then false
      else if bpc == 12 && !info.ycbcr444_dc36 then false
      else true
    | .YUV420 => false

/-- Function `vc4_hdmi_encoder_clock_valid` (lines 1476-1493): the three
ceilings, returning true for MODE_OK. -/
def vc4_hdmi_encoder_clock_valid (dev : Vc4Hdmi) (clock : Nat) : Bool :=
  if clock > dev.max_pixel_clock then false
  else if dev.disable_4kp60 && decide (clock > HDMI_14_MAX_TMDS_CLK) then false
  else if dev.info.max_tmds_clock != 0 &&
          decide (clock > dev.info.max_tmds_clock * 1000) then false
  else true

/-- Function `vc4_hdmi_encoder_compute_mode_clock` (lines 1495-1512):
kHz→Hz, DBLCLK doubling, YUV422 forces an effective 8 bpc,
then `clock * bpc; do_div(clock, 8)`. -/
def vc4_hdmi_encoder_compute_mode_clock (mode : DisplayMode) (bpc : Nat)
    (fmt : OutputFormat) : Nat :=
  let clock := mode.clock * 1000
  let clock := if mode.dblclk then clock * 2 else clock
  let bpc := if fmt == .YUV422 then 8 else bpc
  clock * bpc / 8

/-- Function `vc4_hdmi_mode_needs_scrambling` (lines 127-134). -/
def vc4_hdmi_mode_needs_scrambling (mode : DisplayMode) (bpc : Nat)
    (fmt : OutputFormat) : Bool :=
  vc4_hdmi_encoder_compute_mode_clock mode bpc fmt > HDMI_14_MAX_TMDS_CLK

/-- Function `vc4_hdmi_encoder_compute_clock` (lines 1514-1529): on success
returns the `tmds_char_rate` stored into the connector state. -/
def vc4_hdmi_encoder_compute_clock (dev : Vc4Hdmi) (mode : DisplayMode)
    (bpc : Nat) (fmt : OutputFormat) : Option Nat :=
  let clock := vc4_hdmi_encoder_compute_mode_clock mode bpc fmt
  if vc4_hdmi_encoder_clock_valid dev clock then some clock else none

/-- Function `vc4_hdmi_encoder_compute_format` (lines 1531-1573): try RGB,
then YUV422; on success returns the chosen format and the stored
TMDS character rate. -/
def vc4_hdmi_encoder_compute_format (dev : Vc4Hdmi) (mode : DisplayMode)
    (bpc : Nat) : Option (OutputFormat × Nat) :=
  match (if vc4_hdmi_sink_supports_format_bpc dev.info mode .RGB bpc then
           vc4_hdmi_encoder_compute_clock dev mode bpc .RGB
         else none) with
  | some rate => some (.RGB, rate)
  | none =>
    match (if vc4_hdmi_sink_supports_format_bpc dev.info mode .YUV422 bpc then
             vc4_hdmi_encoder_compute_clock dev mode bpc .YUV422
           else none) with
    | some rate => some (.YUV422, rate)
    | none => none

/-- The negotiated `OutputConfig`: output_bpc, output_format and
tmds_char_rate as stored in `vc4_hdmi_connector_state`. -/
structure OutputConfig where
  bpc : Nat
  format : OutputFormat
  tmds_char_rate : Nat
deriving DecidableEq, Repr

/-- Iteration of the `for (bpc = max_bpc; bpc >= 8; bpc -= 2)` loop,
collecting the loop head values; `fuel` is termination bookkeeping
only (shown fuel-irrelevant below). -/
def bpc_candidates_go : Nat → Nat → List Nat
  | 0, _ => []
  | fuel + 1, b => if 8 ≤ b then b :: bpc_candidates_go fuel (b - 2) else []

/-- The descending candidate list traversed by the
`for (bpc = max_bpc; bpc >= 8; bpc -= 2)` loop. -/
def bpc_candidates (b : Nat) : List Nat :=
  bpc_candidates_go b b

/-- Function `vc4_hdmi_encoder_compute_config` (lines 1575-1607):
clamp the requested max bpc into [8,12], walk bit depths downwards,
stop at the first depth for which `compute_format` succeeds. -/
def vc4_hdmi_encoder_compute_config (dev : Vc4Hdmi) (mode : DisplayMode)
    (max_bpc_req : Nat) : Option OutputConfig :=
  let max_bpc := min (max max_bpc_req 8) 12
  (bpc_candidates max_bpc).findSome? fun bpc =>
    (vc4_hdmi_encoder_compute_format dev mode bpc).map fun fr =>
      ⟨bpc, fr.1, fr.2⟩

/-! Claim-side (spec-worded) description of the negotiation, for the
refinement claim C1: an ordered search over (bit-depth, format)
pairs, depths descending from clamp(req,8,12) by 2, RGB before
YUV422 within each depth, first passing pair wins, with the rate
given by the spec formula. -/

/-- Spec formula: `modeClockHz × (2 if doubleClock else 1) ×
effectiveBpc / 8`, `effectiveBpc = 8` for YUV422. -/
def negotiation_spec_rate (mode : DisplayMode) (bpc : Nat)
    (fmt : OutputFormat) : Nat :=
  mode.clock * 1000 * (if mode.dblclk then 2 else 1) *
    (if fmt == .YUV422 then 8 else bpc) / 8

/-- Spec ordering: for each candidate depth, RGB before YUV422. -/
def negotiation_candidate_pairs (max_bpc_req : Nat) : List (Nat × OutputFormat) :=
  (bpc_candidates (min (max max_bpc_req 8) 12)).flatMap fun b =>
    [(b, .RGB), (b, .YUV422)]

/-- Spec check for one (bit-depth, format) pair: sink support and
all clock ceilings. -/
def negotiation_pair_passes (dev : Vc4Hdmi) (mode : DisplayMode)
    (p : Nat × OutputFormat) : Bool :=
  vc4_hdmi_sink_supports_format_bpc dev.info mode p.2 p.1 &&
  vc4_hdmi_encoder_clock_valid dev (negotiation_spec_rate mode p.1 p.2)

/-- Spec attempt of one pair: the config it yields when it passes. -/
def negotiation_try (dev : Vc4Hdmi) (mode : DisplayMode)
    (p : Nat × OutputFormat) : Option OutputConfig :=
  if negotiation_pair_passes dev mode p then
    some ⟨p.1, p.2, negotiation_spec_rate mode p.1 p.2⟩
  else none

/-- Spec-worded negotiation: first passing pair in the fixed order. -/
def negotiate_spec (dev : Vc4Hdmi) (mode : DisplayMode)
    (max_bpc_req : Nat) : Option OutputConfig :=
  (negotiation_candidate_pairs max_bpc_req).findSome? (negotiation_try dev mode)

/-! Concrete scenario inputs (spec §8): 1080p60, sink with
RGB444 + Deep Color 36 and YCbCr422, max TMDS clock 600 MHz,
no policy flags. -/

/-- Scenario sink capability snapshot. -/
def scenario_sink : DisplayInfo where
  is_hdmi := true
  rgb444 := true
  ycbcr422 := true
  ycbcr444 := false
  rgb444_dc30 := false
  rgb444_dc36 := true
  ycbcr444_dc30 := false
  ycbcr444_dc36 := false
  max_tmds_clock := 600000
  scdc_supported := false
  scrambling_supported := false

/-- Scenario device: 600 MHz variant ceiling, no policy flags. -/
def scenario_dev : Vc4Hdmi where
  max_pixel_clock := 600000000
  unsupported_odd_h_timings := false
  disable_4kp60 := false
  disable_wifi_frequencies := false
  info := scenario_sink

/-- Scenario mode: 1080p60, 148500 kHz, not double-clocked. -/
def scenario_mode : DisplayMode where
  clock := 148500
  dblclk := false
  vic := 16
  hdisplay := 1920
  hsync_start := 2008
  hsync_end := 2052
  htotal := 2200

/-- A DVI-class sink (is-HDMI false) that supports RGB444. -/
def scenario_dvi_sink : DisplayInfo where
  is_hdmi := false
  rgb444 := true
  ycbcr422 := true
  ycbcr444 := false
  rgb444_dc30 := true
  rgb444_dc36 := true
  ycbcr444_dc30 := false
  ycbcr444_dc36 := false
  max_tmds_clock := 340000
  scdc_supported := false
  scrambling_supported := false

/-- Device wired to the DVI-class sink, no policy flags. -/
def scenario_dvi_dev : Vc4Hdmi where
  max_pixel_clock := 600000000
  unsupported_odd_h_timings := false
  disable_4kp60 := false
  disable_wifi_frequencies := false
  info := scenario_dvi_sink

/-! Function `vc4_hdmi_encoder_atomic_check` (lines 1612-1672): DBLCLK hsync
fixup and odd-timing rejection for the legacy variant, the Wi-Fi
coexistence clock override, then negotiation. -/

/-- Constant `#define WIFI_2_4GHz_CH1_MIN_FREQ 2400000000ULL` (line 1609). -/
def WIFI_2_4GHz_CH1_MIN_FREQ : Nat := 2400000000

/-- Constant `#define WIFI_2_4GHz_CH1_MAX_FREQ 2422000000ULL` (line 1610). -/
def WIFI_2_4GHz_CH1_MAX_FREQ : Nat := 2422000000

/-- Lines 1628-1640: on variants with unsupported odd horizontal
timings, DBLCLK modes get their hsync start/end decremented to even
front-porch/sync widths. -/
def atomic_check_fixup_mode (dev : Vc4Hdmi) (mode : DisplayMode) : DisplayMode :=
  if dev.unsupported_odd_h_timings && mode.dblclk then
    let hss := if (mode.hsync_start - mode.hdisplay) % 2 == 1 then
                 mode.hsync_start - 1 else mode.hsync_start
    let hse := if (mode.hsync_end - hss) % 2 == 1 then
                 mode.hsync_end - 1 else mode.hsync_end
    { mode with hsync_start := hss, hsync_end := hse }
  else mode

/-- Lines 1642-1646: reject when odd horizontal values remain. -/
def atomic_check_odd_reject (dev : Vc4Hdmi) (mode : DisplayMode) : Bool :=
  dev.unsupported_odd_h_timings &&
    (mode.hdisplay % 2 == 1 || mode.hsync_start % 2 == 1 ||
     mode.hsync_end % 2 == 1 || mode.htotal % 2 == 1)

/-- Lines 1648-1660: when the wifi-coexistence flag is set and the
TMDS bit rate (10 × the pixel clock in Hz) falls in the 2.4 GHz
channel-1 band, override the mode clock to 238560 kHz. -/
def atomic_check_wifi_mode (dev : Vc4Hdmi) (mode : DisplayMode) : DisplayMode :=
  let tmds_char_rate := mode.clock * 1000
  let tmds_bit_rate := tmds_char_rate * 10
  if dev.disable_wifi_frequencies &&
     (decide (tmds_bit_rate ≥ WIFI_2_4GHz_CH1_MIN_FREQ) &&
      decide (tmds_bit_rate ≤ WIFI_2_4GHz_CH1_MAX_FREQ)) then
    { mode with clock := 238560 }
  else mode

/-- Function `vc4_hdmi_encoder_atomic_check`: result carries the (possibly
mutated) adjusted mode handed to negotiation together with the
negotiated config; `.error` for -EINVAL. -/
def vc4_hdmi_encoder_atomic_check (dev : Vc4Hdmi) (mode : DisplayMode)
    (max_bpc_req : Nat) : Except Unit (DisplayMode × OutputConfig) :=
  let mode₁ := atomic_check_fixup_mode dev mode
  if atomic_check_odd_reject dev mode₁ then .error ()
  else
    let mode₂ := atomic_check_wifi_mode dev mode₁
    match vc4_hdmi_encoder_compute_config dev mode₂ max_bpc_req with
    | some cfg => .ok (mode₂, cfg)
    | none => .error ()

/-- Device with the wifi-coexistence policy flag set, otherwise the
1080p scenario device. -/
def scenario_wifi_dev : Vc4Hdmi where
  max_pixel_clock := 600000000
  unsupported_odd_h_timings := false
  disable_4kp60 := false
  disable_wifi_frequencies := true
  info := scenario_sink

/-- A 241000 kHz mode (1440p-class): its TMDS bit rate 2.41 GHz falls
inside the Wi-Fi channel-1 band. -/
def scenario_wifi_mode : DisplayMode where
  clock := 241000
  dblclk := false
  vic := 0
  hdisplay := 2560
  hsync_start := 2608
  hsync_end := 2640
  htotal := 2720

/-- The GCP color-depth selection of `vc5_hdmi_set_timings`
(lines 1085-1108): the bpc switch, then the YUV422 override.
Returns (color depth code, GCP enable). -/
def vc5_hdmi_set_timings_gcp (bpc : Nat) (fmt : OutputFormat) : Nat × Bool :=
  let gcp : Nat × Bool :=
    if bpc == 12 then (6, true)
    else if bpc == 10 then (5, true)
    else (4, false)
  if fmt == .YUV422 then (4, false) else gcp

/-! ScramblingMonitor (`vc4_hdmi_enable_scrambling` lines 672-700,
`vc4_hdmi_disable_scrambling` lines 702-724,
`vc4_hdmi_supports_scrambling` lines 652-668). The device-local
state is the `scdc_enabled` flag, the scrambler control bit and the
number of pending instances of the recurring work item; sink-side
SCDC writes and work-queue calls are recorded as events. -/

/-- Constant `#define SCRAMBLING_POLLING_DELAY_MS 1000` (line 670). -/
def SCRAMBLING_POLLING_DELAY_MS : Nat := 1000

/-- Scrambling-relevant mutable state of `struct vc4_hdmi`. -/
structure ScramblingState where
  scdc_enabled : Bool
  work_pending : Nat
  scrambler_ctl : Bool
deriving DecidableEq, Repr

/-- Observable side effects of the scrambling routines. -/
inductive ScdcEvent where
  | set_high_tmds_ratio (b : Bool)
  | set_scrambling (b : Bool)
  | write_scrambler_ctl (b : Bool)
  | queue_work (delay_ms : Nat)
  | cancel_work_sync
deriving DecidableEq, Repr

/-- Function `vc4_hdmi_supports_scrambling`: HDMI sink with SCDC transport and
scrambling capability. -/
def vc4_hdmi_supports_scrambling (info : DisplayInfo) : Bool :=
  if !info.is_hdmi then false
  else if !info.scdc_supported || !info.scrambling_supported then false
  else true

/-- Kernel `queue_delayed_work` on an already-pending item is a no-op;
otherwise the item becomes pending once. -/
def queue_delayed_work (pending : Nat) : Nat :=
  if pending == 0 then 1 else pending

/-- Function `vc4_hdmi_enable_scrambling`: guarded by sink capability and the
needs-scrambling threshold; on the enabling path issues the two SCDC
writes, sets the local scrambler bit, marks scdc_enabled and queues
the recurring 1000 ms work item. -/
def vc4_hdmi_enable_scrambling (dev : Vc4Hdmi) (mode : DisplayMode)
    (bpc : Nat) (fmt : OutputFormat) (st : ScramblingState) :
    ScramblingState × List ScdcEvent :=
  if !vc4_hdmi_supports_scrambling dev.info then (st, [])
  else if !vc4_hdmi_mode_needs_scrambling mode bpc fmt then (st, [])
  else
    ({ scdc_enabled := true,
       work_pending := queue_delayed_work st.work_pending,
       scrambler_ctl := true },
     [.set_high_tmds_ratio true, .set_scrambling true,
      .write_scrambler_ctl true, .queue_work SCRAMBLING_POLLING_DELAY_MS])

/-- Function `vc4_hdmi_disable_scrambling`: guarded on scdc_enabled; cancels
the pending work item synchronously, clears the local bit, then
undoes the two SCDC writes. -/
def vc4_hdmi_disable_scrambling (st : ScramblingState) :
    ScramblingState × List ScdcEvent :=
  if !st.scdc_enabled then (st, [])
  else
    ({ scdc_enabled := false, work_pending := 0, scrambler_ctl := false },
     (if st.work_pending ≠ 0 then [ScdcEvent.cancel_work_sync] else []) ++
       [.write_scrambler_ctl false, .set_scrambling false,
        .set_high_tmds_ratio false])

/-- Scrambling-capable HDMI sink. -/
def scenario_scdc_sink : DisplayInfo where
  is_hdmi := true
  rgb444 := true
  ycbcr422 := true
  ycbcr444 := false
  rgb444_dc30 := false
  rgb444_dc36 := false
  ycbcr444_dc30 := false
  ycbcr444_dc36 := false
  max_tmds_clock := 600000
  scdc_supported := true
  scrambling_supported := true

/-- Device wired to the scrambling-capable sink. -/
def scenario_scdc_dev : Vc4Hdmi where
  max_pixel_clock := 600000000
  unsupported_odd_h_timings := false
  disable_4kp60 := false
  disable_wifi_frequencies := false
  info := scenario_scdc_sink

/-- 4k60 mode, 594000 kHz: its TMDS rate at 8 bpc RGB is 594 MHz,
above the 340 MHz scrambling threshold. -/
def scenario_4k_mode : DisplayMode where
  clock := 594000
  dblclk := false
  vic := 97
  hdisplay := 3840
  hsync_start := 4016
  hsync_end := 4104
  htotal := 4400

/-- The all-off scrambling state. -/
def scram_off : ScramblingState where
  scdc_enabled := false
  work_pending := 0
  scrambler_ctl := false

/-! AudioPathConfigurer (`vc4_hdmi_audio_set_mai_clock` lines
1732-1751, `vc4_hdmi_set_n_cts` lines 1753-1778). -/

/-- Modelled from the spec: the MAI SMP N field-width limit
(`VC4_HD_MAI_SMP_N_MASK >> VC4_HD_MAI_SMP_N_SHIFT`, a 24-bit field;
the register header is not under src/). -/
def VC4_HD_MAI_SMP_N_LIMIT : Nat := 16777215

/-- Modelled from the spec: the MAI SMP M limit
(`(VC4_HD_MAI_SMP_M_MASK >> VC4_HD_MAI_SMP_M_SHIFT) + 1`, an 8-bit
field stored as M-1; the register header is not under src/). -/
def VC4_HD_MAI_SMP_M_LIMIT : Nat := 256

/-- Modelled from the spec: loop of the kernel library collaborator
`rational_best_approximation` (continued-fraction best approximation
with semi-convergent handling, bounded by the maxima); `fuel` is
termination bookkeeping for the Euclidean iteration. -/
def rational_best_approximation_go :
    Nat → Nat → Nat → Nat → Nat → Nat → Nat → Nat → Nat → Nat × Nat
  | 0, _, _, _, n1, _, d1, _, _ => (n1, d1)
  | fuel + 1, n, d, n0, n1, d0, d1, maxN, maxD =>
    if d == 0 then (n1, d1)
    else
      let dp := d
      let a := n / d
      let dNew := n % d
      let nNew := dp
      let n2 := n0 + a * n1
      let d2 := d0 + a * d1
      if n2 > maxN || d2 > maxD then
        let t1 := if d1 != 0 then (maxD - d0) / d1 else 18446744073709551615
        let t := if n1 != 0 then min t1 ((maxN - n0) / n1) else t1
        if d1 == 0 || 2 * t > a || (2 * t == a && d0 * dp > d1 * dNew) then
          (n0 + t * n1, d0 + t * d1)
        else (n1, d1)
      else rational_best_approximation_go fuel nNew dNew n1 n2 d1 d2 maxN maxD

/-- Modelled from the spec: `rational_best_approximation(num, den,
maxN, maxD)` of the kernel library (not under src/). -/
def rational_best_approximation (num den maxN maxD : Nat) : Nat × Nat :=
  rational_best_approximation_go (den + 1) num den 0 1 1 0 maxN maxD

/-- Function `vc4_hdmi_audio_set_mai_clock`: the (n, m) pair programmed into
HDMI_MAI_SMP (the register stores n and m-1). -/
def vc4_hdmi_audio_set_mai_clock (hsm_clock samplerate : Nat) : Nat × Nat :=
  rational_best_approximation hsm_clock samplerate
    VC4_HD_MAI_SMP_N_LIMIT VC4_HD_MAI_SMP_M_LIMIT

/-- Function `vc4_hdmi_set_n_cts`: `n = 128 * samplerate / 1000`;
`cts = (mode->clock * 1000) * n / (128 * samplerate)` (do_div
truncation). Returns the programmed (N, CTS). -/
def vc4_hdmi_set_n_cts (mode : DisplayMode) (samplerate : Nat) : Nat × Nat :=
  let n := 128 * samplerate / 1000
  let tmp := mode.clock * 1000 * n
  let cts := tmp / (128 * samplerate)
  (n, cts)

/-! InfoframePacker (`vc4_hdmi_stop_packet` lines 442-460,
`vc4_hdmi_write_infoframe` lines 462-526). Packet RAM writes are
recorded as (byte offset, 32-bit word) pairs; the external
serializer `hdmi_infoframe_pack` is an input (`none` = pack failure);
the slot's active status bit over poll time is an input stream. -/

/-- Modelled from the spec: the fixed per-slot packet RAM stride in
bytes (`VC4_HDMI_PACKET_STRIDE`; the register header is not under
src/). -/
def VC4_HDMI_PACKET_STRIDE : Nat := 36

/-- Polling `wait_for(cond, timeout)`: polls the condition once per time unit
from 0 up to `timeout`; true iff the condition was observed. -/
def wait_for (cond : Nat → Bool) (timeout : Nat) : Bool :=
  (List.range (timeout + 1)).any cond

/-- The `for (i = 0; i < len; i += 7)` packing loop of
`vc4_hdmi_write_infoframe`: two register writes per 7 payload bytes
(3 bytes little-endian into the low word, 4 into the high word),
advancing `packet_reg` by 8; returns the writes and the final
`packet_reg`. `fuel` is termination bookkeeping. -/
def infoframe_pack_go :
    Nat → List Nat → Nat → Nat → List (Nat × Nat) × Nat
  | 0, _, _, reg => ([], reg)
  | fuel + 1, buf, i, reg =>
    if i < buf.length then
      let w1 := buf.getD i 0 + buf.getD (i + 1) 0 * 256 +
                buf.getD (i + 2) 0 * 65536
      let w2 := buf.getD (i + 3) 0 + buf.getD (i + 4) 0 * 256 +
                buf.getD (i + 5) 0 * 65536 + buf.getD (i + 6) 0 * 16777216
      let rest := infoframe_pack_go fuel buf (i + 7) (reg + 8)
      ((reg, w1) :: (reg + 4, w2) :: rest.1, rest.2)
    else ([], reg)

/-- The zero-fill loop `for (; packet_reg < packet_reg_next;
packet_reg += 4) writel(0, ...)`. `fuel` is termination
bookkeeping. -/
def infoframe_zero_fill_go : Nat → Nat → Nat → List (Nat × Nat)
  | 0, _, _ => []
  | fuel + 1, reg, next =>
    if reg < next then (reg, 0) :: infoframe_zero_fill_go fuel (reg + 4) next
    else []

/-- Zero-fill from `reg` to `next` in word steps. -/
def infoframe_zero_fill (reg next : Nat) : List (Nat × Nat) :=
  infoframe_zero_fill_go (next - reg) reg next

/-- Outcome of one `vc4_hdmi_write_infoframe` call: the packet RAM
writes issued (in order), the final value of the slot's enable bit in
RAM_PACKET_CONFIG, whether the slot was stopped (disabled) before any
RAM write, and whether the activation poll timed out (logged,
non-fatal). -/
structure InfoframeWriteResult where
  ram_writes : List (Nat × Nat)
  enable_bit : Bool
  stop_issued : Bool
  start_timeout_logged : Bool
deriving DecidableEq, Repr

/-- Function `vc4_hdmi_write_infoframe`: pack (external, input), stop the slot
and poll up to 100 for the active bit to clear (a timeout aborts with
nothing written and the enable bit left cleared), write the payload
7-bytes-per-8-byte-pair, zero-fill the remainder of the slot, set the
enable bit, poll up to 100 for the active bit to assert (timeout
logged only). `status_after_stop`/`status_after_enable` are the
slot's active-bit streams during the two polls. -/
def vc4_hdmi_write_infoframe (packet_id : Nat) (pack_result : Option (List Nat))
    (initial_enable : Bool)
    (status_after_stop status_after_enable : Nat → Bool) :
    InfoframeWriteResult :=
  match pack_result with
  | none =>
    { ram_writes := [], enable_bit := initial_enable,
      stop_issued := false, start_timeout_logged := false }
  | some buf =>
    if !wait_for (fun t => !(status_after_stop t)) 100 then
      { ram_writes := [], enable_bit := false,
        stop_issued := true, start_timeout_logged := false }
    else
      let packet_reg := VC4_HDMI_PACKET_STRIDE * packet_id
      let packet_reg_next := VC4_HDMI_PACKET_STRIDE * (packet_id + 1)
      let packed := infoframe_pack_go buf.length buf 0 packet_reg
      let zeros := infoframe_zero_fill packed.2 packet_reg_next
      { ram_writes := packed.1 ++ zeros, enable_bit := true,
        stop_issued := true,
        start_timeout_logged := !wait_for status_after_enable 100 }

/-- Claim-side packing: the payload split into 7-byte chunks, the
k-th chunk written as an 8-byte register pair. -/
def seven_chunk_words (buf : List Nat) (reg : Nat) : List (Nat × Nat) :=
  if h : buf = [] then []
  else
    (reg, buf.getD 0 0 + buf.getD 1 0 * 256 + buf.getD 2 0 * 65536) ::
    (reg + 4, buf.getD 3 0 + buf.getD 4 0 * 256 + buf.getD 5 0 * 65536 +
      buf.getD 6 0 * 16777216) ::
    seven_chunk_words (buf.drop 7) (reg + 8)
termination_by buf.length
decreasing_by
  simp_wf
  cases buf with
  | nil => exact absurd rfl h
  | cons b rest => simp only [List.length_drop, List.length_cons]; omega

/-- Claim-side zero fill: one zero word every 4 bytes from `last` up
to `next`. -/
def zero_words_spec (last next : Nat) : List (Nat × Nat) :=
  (List.range ((next - last + 3) / 4)).map fun k => (last + 4 * k, 0)

/-- Claim-side image of one slot write: packed payload pairs followed
by zero words to the end of the slot. -/
def infoframe_slot_image (packet_id : Nat) (buf : List Nat) : List (Nat × Nat) :=
  let base := VC4_HDMI_PACKET_STRIDE * packet_id
  let next := VC4_HDMI_PACKET_STRIDE * (packet_id + 1)
  let last := base + 8 * ((buf.length + 6) / 7)
  seven_chunk_words buf base ++ zero_words_spec last next

/-! PowerSequencer (`vc4_hdmi_encoder_pre_crtc_configure` lines
1172-1278). Fallible external calls (clock rate setting, power
acquisition, clock enabling) succeed or fail per an oracle; side
effects are recorded as an event trace. -/

/-- Which of the fallible calls of the configure path succeed. -/
structure CfgOracle where
  hsm_rate_ok : Bool
  pm_ok : Bool
  pixel_rate_ok : Bool
  pixel_enable_ok : Bool
  bvb_rate_ok : Bool
  bvb_enable_ok : Bool
deriving DecidableEq, Repr

/-- Resources held after the configure path returns. -/
structure CfgState where
  power_held : Bool
  pixel_on : Bool
  bvb_on : Bool
deriving DecidableEq, Repr

/-- Observable steps of the configure path. -/
inductive CfgEvent where
  | set_hsm_min_rate (rate : Nat)
  | pm_get
  | set_pixel_rate (rate : Nat)
  | enable_pixel
  | set_bvb_min_rate (rate : Nat)
  | enable_bvb
  | phy_init
  | sched_enable_manual_fmt
  | program_timings
  | disable_pixel
  | pm_put
deriving DecidableEq, Repr

/-- Line 1205: `hsm_rate = max_t(unsigned long, 120000000,
(tmds_char_rate / 100) * 101)`. -/
def vc4_hdmi_hsm_min_rate (tmds : Nat) : Nat :=
  max 120000000 (tmds / 100 * 101)

/-- Lines 1233-1238: the three-tier bvb clock minimum. -/
def vc4_hdmi_bvb_rate (tmds : Nat) : Nat :=
  if tmds > 297000000 then 300000000
  else if tmds > 148500000 then 150000000
  else 75000000

/-- Function `vc4_hdmi_encoder_pre_crtc_configure`: the ordered sequence with
its goto-based unwind (`err_disable_pixel_clock`,
`err_put_runtime_pm`, `out`). A pm_get failure holds no power
(`pm_runtime_resume_and_get` drops its reference on failure). -/
def vc4_hdmi_encoder_pre_crtc_configure (o : CfgOracle) (tmds : Nat) :
    CfgState × List CfgEvent :=
  let ev0 := [CfgEvent.set_hsm_min_rate (vc4_hdmi_hsm_min_rate tmds)]
  if !o.hsm_rate_ok then (⟨false, false, false⟩, ev0)
  else
    let ev1 := ev0 ++ [CfgEvent.pm_get]
    if !o.pm_ok then (⟨false, false, false⟩, ev1)
    else
      let ev2 := ev1 ++ [CfgEvent.set_pixel_rate tmds]
      if !o.pixel_rate_ok then (⟨false, false, false⟩, ev2 ++ [CfgEvent.pm_put])
      else
        let ev3 := ev2 ++ [CfgEvent.enable_pixel]
        if !o.pixel_enable_ok then
          (⟨false, false, false⟩, ev3 ++ [CfgEvent.pm_put])
        else
          let ev4 := ev3 ++ [CfgEvent.set_bvb_min_rate (vc4_hdmi_bvb_rate tmds)]
          if !o.bvb_rate_ok then
            (⟨false, false, false⟩,
             ev4 ++ [CfgEvent.disable_pixel, CfgEvent.pm_put])
          else
            let ev5 := ev4 ++ [CfgEvent.enable_bvb]
            if !o.bvb_enable_ok then
              (⟨false, false, false⟩,
               ev5 ++ [CfgEvent.disable_pixel, CfgEvent.pm_put])
            else
              (⟨true, true, true⟩,
               ev5 ++ [CfgEvent.phy_init, CfgEvent.sched_enable_manual_fmt,
                 CfgEvent.program_timings])

/-- Claim-side sequence for the amended C7: identical steps and
unwind, with the scheduler enabled in manual-format mode before the
timing registers are programmed (as the code does). -/
def pre_crtc_configure_spec (o : CfgOracle) (tmds : Nat) :
    CfgState × List CfgEvent :=
  let hsm := max 120000000 (tmds / 100 * 101)
  let bvb := if tmds > 297000000 then 300000000
             else if tmds > 148500000 then 150000000
             else 75000000
  let off : CfgState := ⟨false, false, false⟩
  if !o.hsm_rate_ok then (off, [.set_hsm_min_rate hsm])
  else if !o.pm_ok then (off, [.set_hsm_min_rate hsm, .pm_get])
  else if !o.pixel_rate_ok then
    (off, [.set_hsm_min_rate hsm, .pm_get, .set_pixel_rate tmds, .pm_put])
  else if !o.pixel_enable_ok then
    (off, [.set_hsm_min_rate hsm, .pm_get, .set_pixel_rate tmds,
      .enable_pixel, .pm_put])
  else if !o.bvb_rate_ok then
    (off, [.set_hsm_min_rate hsm, .pm_get, .set_pixel_rate tmds,
      .enable_pixel, .set_bvb_min_rate bvb, .disable_pixel, .pm_put])
  else if !o.bvb_enable_ok then
    (off, [.set_hsm_min_rate hsm, .pm_get, .set_pixel_rate tmds,
      .enable_pixel, .set_bvb_min_rate bvb, .enable_bvb, .disable_pixel,
      .pm_put])
  else
    (⟨true, true, true⟩,
     [.set_hsm_min_rate hsm, .pm_get, .set_pixel_rate tmds, .enable_pixel,
      .set_bvb_min_rate bvb, .enable_bvb, .phy_init,
      .sched_enable_manual_fmt, .program_timings])

/-- The all-success oracle. -/
def cfg_all_ok : CfgOracle := ⟨true, true, true, true, true, true⟩

end VC4

/-! ## Theorems -/

namespace VC4

theorem bpc_candidates_go_congr :
    ∀ f₁ f₂ b, b ≤ f₁ → b ≤ f₂ →
      bpc_candidates_go f₁ b = bpc_candidates_go f₂ b := by
  intro f₁
  induction f₁ with
  | zero =>
    intro f₂ b hb₁ _
    interval_cases b
    cases f₂ <;> simp [bpc_candidates_go]
  | succ f ih =>
    intro f₂ b hb₁ hb₂
    cases f₂ with
    | zero =>
      interval_cases b
      simp [bpc_candidates_go]
    | succ f' =>
      simp only [bpc_candidates_go]
      by_cases h : 8 ≤ b
      · simp only [if_pos h]
        rw [ih f' (b - 2) (by omega) (by omega)]
      · simp [if_neg h]

/-- The candidate loop satisfies its natural unfolding equation. -/
theorem bpc_candidates_unfold (b : Nat) :
    bpc_candidates b = if 8 ≤ b then b :: bpc_candidates (b - 2) else [] := by
  cases b with
  | zero => simp [bpc_candidates, bpc_candidates_go]
  | succ n =>
    simp only [bpc_candidates, bpc_candidates_go]
    by_cases h : 8 ≤ n + 1
    · simp only [if_pos h]
      exact congrArg _ (bpc_candidates_go_congr n (n + 1 - 2) (n + 1 - 2)
        (by omega) (by omega))
    · have h7 : ¬ 7 ≤ n := by omega
      simp [h7]

/-- The code's clock computation agrees with the spec formula. -/
theorem compute_mode_clock_eq_spec (mode : DisplayMode) (bpc : Nat)
    (fmt : OutputFormat) :
    vc4_hdmi_encoder_compute_mode_clock mode bpc fmt =
      negotiation_spec_rate mode bpc fmt := by
  unfold vc4_hdmi_encoder_compute_mode_clock negotiation_spec_rate
  cases h : mode.dblclk <;> cases fmt <;> simp [mul_assoc, mul_one]

/-- One depth of `compute_format` equals the ordered two-pair search. -/
theorem compute_format_eq_pairs (dev : Vc4Hdmi) (mode : DisplayMode) (b : Nat) :
    (vc4_hdmi_encoder_compute_format dev mode b).map
        (fun fr => (⟨b, fr.1, fr.2⟩ : OutputConfig)) =
      ([(b, OutputFormat.RGB), (b, OutputFormat.YUV422)]).findSome?
        (negotiation_try dev mode) := by
  simp only [vc4_hdmi_encoder_compute_format, vc4_hdmi_encoder_compute_clock,
    List.findSome?_cons, List.findSome?_nil, negotiation_try,
    negotiation_pair_passes, compute_mode_clock_eq_spec]
  by_cases h1 : vc4_hdmi_sink_supports_format_bpc dev.info mode .RGB b
  · by_cases h2 : vc4_hdmi_encoder_clock_valid dev (negotiation_spec_rate mode b .RGB)
    · simp [h1, h2]
    · by_cases h3 : vc4_hdmi_sink_supports_format_bpc dev.info mode .YUV422 b
      · by_cases h4 : vc4_hdmi_encoder_clock_valid dev
            (negotiation_spec_rate mode b .YUV422)
        · simp [h1, h2, h3, h4]
        · simp [h1, h2, h3, h4]
      · simp [h1, h2, h3]
  · by_cases h3 : vc4_hdmi_sink_supports_format_bpc dev.info mode .YUV422 b
    · by_cases h4 : vc4_hdmi_encoder_clock_valid dev
          (negotiation_spec_rate mode b .YUV422)
      · simp [h1, h3, h4]
      · simp [h1, h3, h4]
    · simp [h1, h3]

/-- Walking a depth list with `compute_format` equals searching the
flattened (depth, format) pair list. -/
theorem findSome?_depths_eq_pairs (dev : Vc4Hdmi) (mode : DisplayMode) :
    ∀ L : List Nat,
      (L.findSome? fun b =>
        (vc4_hdmi_encoder_compute_format dev mode b).map fun fr =>
          (⟨b, fr.1, fr.2⟩ : OutputConfig)) =
      ((L.flatMap fun b => [(b, OutputFormat.RGB), (b, OutputFormat.YUV422)]).findSome?
        (negotiation_try dev mode)) := by
  intro L
  induction L with
  | nil => rfl
  | cons b L ih =>
    rw [List.findSome?_cons, List.flatMap_cons, List.findSome?_append, ← ih,
      ← compute_format_eq_pairs dev mode b]
    cases h : (vc4_hdmi_encoder_compute_format dev mode b).map
        (fun fr => (⟨b, fr.1, fr.2⟩ : OutputConfig)) <;>
      simp [Option.or]

/-- C1: for every display mode, sink capability snapshot and requested
maximum bpc, negotiation is exactly the ordered search over candidate
bit depths descending from clamp(req, 8, 12) to 8 in steps of 2, RGB
tried before YUV422 at each depth, returning the first pair passing the
sink-support and clock-ceiling checks, with the negotiated TMDS
character rate equal to modeClockHz × (2 if double-clock else 1) ×
effectiveBpc / 8 (effectiveBpc = 8 for YUV422); and on the 148500 kHz
non-double-clock scenario with a sink supporting RGB444 + DC36 and
YCbCr422 and a 12-bpc request, the result is bpc 12, RGB,
222750000 Hz. -/
theorem C1_negotiation_ordered_search :
    (∀ (dev : Vc4Hdmi) (mode : DisplayMode) (req : Nat),
      vc4_hdmi_encoder_compute_config dev mode req = negotiate_spec dev mode req) ∧
    vc4_hdmi_encoder_compute_config scenario_dev scenario_mode 12 =
      some ⟨12, OutputFormat.RGB, 222750000⟩ := by
  constructor
  · intro dev mode req
    unfold vc4_hdmi_encoder_compute_config negotiate_spec
      negotiation_candidate_pairs
    exact findSome?_depths_eq_pairs dev mode (bpc_candidates (min (max req 8) 12))
  · decide

/-- Validator `clock_valid` returning MODE_OK is exactly the conjunction of the
three (conditionally active) ceilings. -/
theorem clock_valid_true_iff (dev : Vc4Hdmi) (clock : Nat) :
    vc4_hdmi_encoder_clock_valid dev clock = true ↔
      clock ≤ dev.max_pixel_clock ∧
      (dev.disable_4kp60 = true → clock ≤ HDMI_14_MAX_TMDS_CLK) ∧
      (dev.info.max_tmds_clock ≠ 0 → clock ≤ dev.info.max_tmds_clock * 1000) := by
  unfold vc4_hdmi_encoder_clock_valid
  by_cases h1 : clock > dev.max_pixel_clock
  · simp [h1] <;> omega
  · by_cases h2 : dev.disable_4kp60 = true
    · by_cases h3 : clock > HDMI_14_MAX_TMDS_CLK
      · simp [h1, h2, h3] <;> omega
      · by_cases h4 : dev.info.max_tmds_clock = 0
        · simp [h1, h2, h3, h4] <;> omega
        · by_cases h5 : clock > dev.info.max_tmds_clock * 1000
          · simp [h1, h2, h3, h4, h5] <;> omega
          · simp [h1, h2, h3, h4, h5] <;> omega
    · have h2' : dev.disable_4kp60 = false := by
        cases h : dev.disable_4kp60 <;> simp_all
      by_cases h4 : dev.info.max_tmds_clock = 0
      · simp [h1, h2', h4] <;> omega
      · by_cases h5 : clock > dev.info.max_tmds_clock * 1000
        · simp [h1, h2', h4, h5] <;> omega
        · simp [h1, h2', h4, h5] <;> omega

/-- A successful `compute_clock` passed the ceiling validation and
returned exactly the computed mode clock. -/
theorem compute_clock_some (dev : Vc4Hdmi) (mode : DisplayMode) (bpc : Nat)
    (fmt : OutputFormat) (r : Nat)
    (h : vc4_hdmi_encoder_compute_clock dev mode bpc fmt = some r) :
    vc4_hdmi_encoder_clock_valid dev r = true ∧
      r = vc4_hdmi_encoder_compute_mode_clock mode bpc fmt := by
  simp only [vc4_hdmi_encoder_compute_clock] at h
  split at h
  · next hv => cases h; exact ⟨hv, rfl⟩
  · cases h

/-- A successful `compute_format` for depth `bpc` chose a format the
sink supports at that depth, with a ceiling-valid rate equal to the
computed mode clock. -/
theorem compute_format_some (dev : Vc4Hdmi) (mode : DisplayMode) (bpc : Nat)
    (f : OutputFormat) (r : Nat)
    (h : vc4_hdmi_encoder_compute_format dev mode bpc = some (f, r)) :
    vc4_hdmi_sink_supports_format_bpc dev.info mode f bpc = true ∧
      vc4_hdmi_encoder_clock_valid dev r = true ∧
      r = vc4_hdmi_encoder_compute_mode_clock mode bpc f := by
  unfold vc4_hdmi_encoder_compute_format at h
  split at h
  · next rate heq =>
    cases h
    split at heq
    · next hs => exact ⟨hs, (compute_clock_some _ _ _ _ _ heq).1,
        (compute_clock_some _ _ _ _ _ heq).2⟩
    · cases heq
  · next heq1 =>
    split at h
    · next rate heq =>
      cases h
      split at heq
      · next hs => exact ⟨hs, (compute_clock_some _ _ _ _ _ heq).1,
          (compute_clock_some _ _ _ _ _ heq).2⟩
      · cases heq
    · cases h

/-- A successful `compute_config` came from some candidate depth whose
`compute_format` succeeded. -/
theorem compute_config_some (dev : Vc4Hdmi) (mode : DisplayMode) (req : Nat)
    (cfg : OutputConfig)
    (h : vc4_hdmi_encoder_compute_config dev mode req = some cfg) :
    ∃ b ∈ bpc_candidates (min (max req 8) 12),
      vc4_hdmi_encoder_compute_format dev mode b = some (cfg.format, cfg.tmds_char_rate) ∧
      cfg.bpc = b := by
  unfold vc4_hdmi_encoder_compute_config at h
  obtain ⟨b, hb, hf⟩ := List.exists_of_findSome?_eq_some h
  rw [Option.map_eq_some'] at hf
  obtain ⟨fr, hfr, hcfg⟩ := hf
  exact ⟨b, hb, by rw [← hcfg]; exact hfr, by rw [← hcfg]⟩

/-- C2: whenever negotiation succeeds, the resulting TMDS character
rate respects every active ceiling — the variant maximum, the
340 MHz limit when disable-4kp60 is set, and the sink's nonzero
advertised maximum TMDS clock × 1000; moreover any candidate clock
exceeding an active ceiling is rejected by the validator. -/
theorem C2_rate_within_ceilings :
    (∀ (dev : Vc4Hdmi) (mode : DisplayMode) (req : Nat) (cfg : OutputConfig),
      vc4_hdmi_encoder_compute_config dev mode req = some cfg →
        cfg.tmds_char_rate ≤ dev.max_pixel_clock ∧
        (dev.disable_4kp60 = true → cfg.tmds_char_rate ≤ 340000000) ∧
        (dev.info.max_tmds_clock ≠ 0 →
          cfg.tmds_char_rate ≤ dev.info.max_tmds_clock * 1000)) ∧
    (∀ (dev : Vc4Hdmi) (clock : Nat),
      (clock > dev.max_pixel_clock ∨
       (dev.disable_4kp60 = true ∧ clock > 340000000) ∨
       (dev.info.max_tmds_clock ≠ 0 ∧ clock > dev.info.max_tmds_clock * 1000)) →
      vc4_hdmi_encoder_clock_valid dev clock = false) := by
  constructor
  · intro dev mode req cfg h
    obtain ⟨b, _, hf, _⟩ := compute_config_some dev mode req cfg h
    have hv := (compute_format_some dev mode b cfg.format cfg.tmds_char_rate hf).2.1
    have := (clock_valid_true_iff dev cfg.tmds_char_rate).mp hv
    exact ⟨this.1, this.2.1, this.2.2⟩
  · intro dev clock h
    cases hv : vc4_hdmi_encoder_clock_valid dev clock
    · rfl
    · exfalso
      have := (clock_valid_true_iff dev clock).mp hv
      rcases h with h | ⟨h4, h4'⟩ | ⟨ht, ht'⟩
      · omega
      · have := this.2.1 h4
        unfold HDMI_14_MAX_TMDS_CLK at this
        omega
      · have := this.2.2 ht
        omega

/-- Witness for C2 at the concrete 1080p60 scenario and at a clock
exceeding the variant ceiling. -/
theorem C2_rate_within_ceilings_witness :
    (222750000 ≤ scenario_dev.max_pixel_clock ∧
      (scenario_dev.disable_4kp60 = true → 222750000 ≤ 340000000) ∧
      (scenario_dev.info.max_tmds_clock ≠ 0 →
        222750000 ≤ scenario_dev.info.max_tmds_clock * 1000)) ∧
    vc4_hdmi_encoder_clock_valid scenario_dev 700000000 = false := by
  constructor
  · have h := C2_rate_within_ceilings.1 scenario_dev scenario_mode 12
      ⟨12, OutputFormat.RGB, 222750000⟩ (by decide)
    exact h
  · exact C2_rate_within_ceilings.2 scenario_dev 700000000 (Or.inl (by decide))

/-- On a non-HDMI sink, any format/bpc pair the sink check accepts is
RGB at 8 bpc. -/
theorem sink_supports_dvi (info : DisplayInfo) (mode : DisplayMode)
    (f : OutputFormat) (b : Nat) (h : info.is_hdmi = false)
    (hs : vc4_hdmi_sink_supports_format_bpc info mode f b = true) :
    f = OutputFormat.RGB ∧ b = 8 := by
  unfold vc4_hdmi_sink_supports_format_bpc at hs
  split at hs
  · exact absurd hs (by simp)
  · split at hs
    · exact absurd hs (by simp)
    · next hcond =>
      rw [h] at hcond
      simpa using hcond

/-- C3: negotiation against a DVI-class sink (is-HDMI false) only ever
returns RGB at 8 bpc — any successful config has that shape, hence
never a YUV format nor a depth above 8. -/
theorem C3_dvi_sink_rgb8 (dev : Vc4Hdmi) (mode : DisplayMode) (req : Nat)
    (h : dev.info.is_hdmi = false) (cfg : OutputConfig)
    (hc : vc4_hdmi_encoder_compute_config dev mode req = some cfg) :
    cfg.format = OutputFormat.RGB ∧ cfg.bpc = 8 := by
  obtain ⟨b, _, hf, hb⟩ := compute_config_some dev mode req cfg hc
  have hs := (compute_format_some dev mode b cfg.format cfg.tmds_char_rate hf).1
  have := sink_supports_dvi dev.info mode cfg.format b h hs
  exact ⟨this.1, by rw [hb]; exact this.2⟩

/-- Witness for C3: the concrete DVI sink negotiates to RGB at 8 bpc
(rate 148500000) and the theorem applies to it. -/
theorem C3_dvi_sink_rgb8_witness :
    scenario_dvi_dev.info.is_hdmi = false ∧
    vc4_hdmi_encoder_compute_config scenario_dvi_dev scenario_mode 12 =
      some ⟨8, OutputFormat.RGB, 148500000⟩ ∧
    ((⟨8, OutputFormat.RGB, 148500000⟩ : OutputConfig).format = OutputFormat.RGB ∧
      (⟨8, OutputFormat.RGB, 148500000⟩ : OutputConfig).bpc = 8) := by
  refine ⟨rfl, by decide, ?_⟩
  exact C3_dvi_sink_rgb8 scenario_dvi_dev scenario_mode 12 rfl
    ⟨8, OutputFormat.RGB, 148500000⟩ (by decide)

/-- The hsync fixup never touches the pixel clock. -/
theorem fixup_mode_clock (dev : Vc4Hdmi) (mode : DisplayMode) :
    (atomic_check_fixup_mode dev mode).clock = mode.clock := by
  unfold atomic_check_fixup_mode
  split <;> rfl

/-- C4: with the wifi-coexistence flag set, on modes whose TMDS bit
rate (10 × the pixel clock in Hz) lies in the inclusive band
2400000000-2422000000 Hz, the atomic check overrides the mode clock
to 238560 kHz before negotiation: the mode handed to negotiation has
clock 238560. -/
theorem C4_wifi_band_override (dev : Vc4Hdmi) (mode : DisplayMode) (req : Nat)
    (h1 : dev.disable_wifi_frequencies = true)
    (h2 : WIFI_2_4GHz_CH1_MIN_FREQ ≤ mode.clock * 1000 * 10)
    (h3 : mode.clock * 1000 * 10 ≤ WIFI_2_4GHz_CH1_MAX_FREQ) :
    (atomic_check_wifi_mode dev (atomic_check_fixup_mode dev mode)).clock = 238560 ∧
    (∀ m cfg, vc4_hdmi_encoder_atomic_check dev mode req = .ok (m, cfg) →
       m.clock = 238560) := by
  have hov : (atomic_check_wifi_mode dev (atomic_check_fixup_mode dev mode)).clock
      = 238560 := by
    simp only [atomic_check_wifi_mode, fixup_mode_clock]
    simp [h1, h2, h3]
  refine ⟨hov, ?_⟩
  intro m cfg hok
  simp only [vc4_hdmi_encoder_atomic_check] at hok
  split at hok
  · cases hok
  · split at hok
    · next cfg' heq =>
      cases hok
      exact hov
    · cases hok

/-- Witness for C4: a 241000 kHz mode (bit rate 2.41 GHz, inside the
band) with the flag set is overridden, and the atomic check
negotiates on the overridden 238560 kHz mode. -/
theorem C4_wifi_band_override_witness :
    scenario_wifi_dev.disable_wifi_frequencies = true ∧
    WIFI_2_4GHz_CH1_MIN_FREQ ≤ scenario_wifi_mode.clock * 1000 * 10 ∧
    scenario_wifi_mode.clock * 1000 * 10 ≤ WIFI_2_4GHz_CH1_MAX_FREQ ∧
    (atomic_check_wifi_mode scenario_wifi_dev
        (atomic_check_fixup_mode scenario_wifi_dev scenario_wifi_mode)).clock
      = 238560 := by
  refine ⟨rfl, by decide, by decide, ?_⟩
  exact (C4_wifi_band_override scenario_wifi_dev scenario_wifi_mode 12 rfl
    (by decide) (by decide)).1

/-- C5: the extended-generation timing programmer's GCP parameters:
YUV422 always yields code 4 with GCP disabled; otherwise bpc 12 gives
code 6 enabled, bpc 10 gives code 5 enabled, and 8 or any other value
gives code 4 disabled. -/
theorem C5_gcp_color_depth : ∀ (bpc : Nat) (fmt : OutputFormat),
    vc5_hdmi_set_timings_gcp bpc fmt =
      if fmt = OutputFormat.YUV422 then (4, false)
      else if bpc = 12 then (6, true)
      else if bpc = 10 then (5, true)
      else (4, false) := by
  intro bpc fmt
  unfold vc5_hdmi_set_timings_gcp
  by_cases h12 : bpc = 12
  · subst h12
    cases fmt <;> simp
  · by_cases h10 : bpc = 10
    · subst h10
      cases fmt <;> simp
    · cases fmt <;> simp [h12, h10]

/-- C8: enabling scrambling is a no-op unless the sink advertises SCDC
and scrambling capability and the computed TMDS rate exceeds 340 MHz;
the needs-scrambling test is exactly that threshold; on the enabling
path it issues the two SCDC writes, sets the local scrambler bit and
queues exactly one recurring 1000 ms task; and teardown leaves zero
pending task instances. -/
theorem C8_scrambling_lifecycle :
    (∀ (dev : Vc4Hdmi) (mode : DisplayMode) (bpc : Nat) (fmt : OutputFormat)
        (st : ScramblingState),
      (vc4_hdmi_supports_scrambling dev.info = false ∨
       vc4_hdmi_mode_needs_scrambling mode bpc fmt = false) →
      vc4_hdmi_enable_scrambling dev mode bpc fmt st = (st, [])) ∧
    (∀ (mode : DisplayMode) (bpc : Nat) (fmt : OutputFormat),
      vc4_hdmi_mode_needs_scrambling mode bpc fmt = true ↔
        vc4_hdmi_encoder_compute_mode_clock mode bpc fmt > 340000000) ∧
    (∀ (dev : Vc4Hdmi) (mode : DisplayMode) (bpc : Nat) (fmt : OutputFormat)
        (st : ScramblingState),
      vc4_hdmi_supports_scrambling dev.info = true →
      vc4_hdmi_mode_needs_scrambling mode bpc fmt = true →
      vc4_hdmi_enable_scrambling dev mode bpc fmt st =
        ({ scdc_enabled := true,
           work_pending := queue_delayed_work st.work_pending,
           scrambler_ctl := true },
         [.set_high_tmds_ratio true, .set_scrambling true,
          .write_scrambler_ctl true, .queue_work 1000]) ∧
      (st.work_pending = 0 →
        (vc4_hdmi_enable_scrambling dev mode bpc fmt st).1.work_pending = 1)) ∧
    (∀ st : ScramblingState, (st.work_pending ≠ 0 → st.scdc_enabled = true) →
      (vc4_hdmi_disable_scrambling st).1.work_pending = 0) := by
  refine ⟨?_, ?_, ?_, ?_⟩
  · intro dev mode bpc fmt st h
    rcases h with h | h <;> simp [vc4_hdmi_enable_scrambling, h]
  · intro mode bpc fmt
    simp [vc4_hdmi_mode_needs_scrambling, HDMI_14_MAX_TMDS_CLK]
  · intro dev mode bpc fmt st h1 h2
    constructor
    · simp [vc4_hdmi_enable_scrambling, h1, h2, SCRAMBLING_POLLING_DELAY_MS]
    · intro h0
      simp [vc4_hdmi_enable_scrambling, h1, h2, queue_delayed_work, h0]
  · intro st hinv
    by_cases h : st.scdc_enabled
    · simp [vc4_hdmi_disable_scrambling, h]
    · have hp : st.work_pending = 0 := by
        by_contra hne
        exact h (hinv hne)
      simp [vc4_hdmi_disable_scrambling, h, hp]

/-- Witness for C8: the sub-threshold 1080p case is a no-op; the
4k60 case on a scrambling-capable sink enables and queues exactly one
task; teardown from the enabled state leaves zero pending. -/
theorem C8_scrambling_lifecycle_witness :
    vc4_hdmi_enable_scrambling scenario_dev scenario_mode 8 .RGB scram_off =
      (scram_off, []) ∧
    vc4_hdmi_enable_scrambling scenario_scdc_dev scenario_4k_mode 8 .RGB scram_off =
      ({ scdc_enabled := true,
         work_pending := queue_delayed_work scram_off.work_pending,
         scrambler_ctl := true },
       [.set_high_tmds_ratio true, .set_scrambling true,
        .write_scrambler_ctl true, .queue_work 1000]) ∧
    (vc4_hdmi_enable_scrambling scenario_scdc_dev scenario_4k_mode 8 .RGB
      scram_off).1.work_pending = 1 ∧
    (vc4_hdmi_disable_scrambling
      (vc4_hdmi_enable_scrambling scenario_scdc_dev scenario_4k_mode 8 .RGB
        scram_off).1).1.work_pending = 0 := by
  refine ⟨?_, ?_, ?_, ?_⟩
  · exact C8_scrambling_lifecycle.1 scenario_dev scenario_mode 8 .RGB scram_off
      (Or.inr (by decide))
  · exact (C8_scrambling_lifecycle.2.2.1 scenario_scdc_dev scenario_4k_mode 8 .RGB
      scram_off (by decide) (by decide)).1
  · exact (C8_scrambling_lifecycle.2.2.1 scenario_scdc_dev scenario_4k_mode 8 .RGB
      scram_off (by decide) (by decide)).2 rfl
  · exact C8_scrambling_lifecycle.2.2.2 _ (by decide)

/-- C10: disabling scrambling is guarded on scdc_enabled and is
idempotent: with the flag clear it performs no writes and leaves the
state unchanged; a second disable after a first is a no-op; and after
any disable call scdc_enabled is false. -/
theorem C10_disable_guarded_idempotent :
    (∀ st : ScramblingState, st.scdc_enabled = false →
      vc4_hdmi_disable_scrambling st = (st, [])) ∧
    (∀ st : ScramblingState,
      vc4_hdmi_disable_scrambling (vc4_hdmi_disable_scrambling st).1 =
        ((vc4_hdmi_disable_scrambling st).1, [])) ∧
    (∀ st : ScramblingState,
      (vc4_hdmi_disable_scrambling st).1.scdc_enabled = false) := by
  refine ⟨?_, ?_, ?_⟩
  · intro st h
    simp [vc4_hdmi_disable_scrambling, h]
  · intro st
    by_cases h : st.scdc_enabled
    · simp [vc4_hdmi_disable_scrambling, h]
    · simp [vc4_hdmi_disable_scrambling, h]
  · intro st
    by_cases h : st.scdc_enabled <;>
      simp [vc4_hdmi_disable_scrambling, h]

/-- Witness for C10: a state with scdc_enabled clear is left untouched
by disable. -/
theorem C10_disable_guarded_idempotent_witness :
    vc4_hdmi_disable_scrambling scram_off = (scram_off, []) := by
  exact C10_disable_guarded_idempotent.1 scram_off rfl

/-- C9: the programmed CTS equals
floor(pixelClockHz × N / (128 × samplerate)) with N the programmed
CRP N for every mode and sample rate; the MAI clock N/M pair is the
rational best approximation of (clock rate, sample rate) bounded by
the register field widths; and on the 48 kHz / 148.5 MHz scenario the
programmed values are N = 6144, CTS = 148500 (and MAI pair
(4500, 1), within the field limits). -/
theorem C9_audio_n_cts :
    (∀ (mode : DisplayMode) (samplerate : Nat),
      (vc4_hdmi_set_n_cts mode samplerate).2 =
        mode.clock * 1000 * (vc4_hdmi_set_n_cts mode samplerate).1 /
          (128 * samplerate)) ∧
    (∀ hsm_clock samplerate : Nat,
      vc4_hdmi_audio_set_mai_clock hsm_clock samplerate =
        rational_best_approximation hsm_clock samplerate
          VC4_HD_MAI_SMP_N_LIMIT VC4_HD_MAI_SMP_M_LIMIT) ∧
    vc4_hdmi_audio_set_mai_clock 216000000 48000 = (4500, 1) ∧
    4500 ≤ VC4_HD_MAI_SMP_N_LIMIT ∧ 1 ≤ VC4_HD_MAI_SMP_M_LIMIT ∧
    vc4_hdmi_set_n_cts scenario_mode 48000 = (6144, 148500) ∧
    148500 = 148500000 * 6144 / (128 * 48000) := by
  refine ⟨fun _ _ => rfl, fun _ _ => rfl, by decide, by decide, by decide,
    by decide, by decide⟩

/-- Dropping then indexing with default zero. -/
theorem getD_drop_zero (l : List Nat) (i j : Nat) :
    (l.drop i).getD j 0 = l.getD (i + j) 0 := by
  simp [List.getD_eq_getElem?_getD, List.getElem?_drop]

/-- The C packing loop produces the 7-byte-chunk pairs of the
remaining payload and leaves `packet_reg` 8 bytes past each pair. -/
theorem infoframe_pack_go_spec :
    ∀ (fuel : Nat) (buf : List Nat) (i reg : Nat), buf.length - i ≤ fuel →
      infoframe_pack_go fuel buf i reg =
        (seven_chunk_words (buf.drop i) reg,
         reg + 8 * ((buf.length - i + 6) / 7)) := by
  intro fuel
  induction fuel with
  | zero =>
    intro buf i reg h
    have hle : buf.length ≤ i := by omega
    have hd : buf.drop i = [] := List.drop_eq_nil_of_le hle
    rw [infoframe_pack_go, hd, seven_chunk_words]
    have hz : (buf.length - i + 6) / 7 = 0 := by omega
    simp [hz]
  | succ fuel ih =>
    intro buf i reg h
    rw [infoframe_pack_go]
    by_cases hlt : i < buf.length
    · rw [if_pos hlt]
      rw [ih buf (i + 7) (reg + 8) (by omega)]
      have hne : buf.drop i ≠ [] := by
        intro hnil
        have := congrArg List.length hnil
        simp at this
        omega
      conv_rhs => rw [seven_chunk_words]
      rw [dif_neg hne]
      have hdd : (buf.drop i).drop 7 = buf.drop (i + 7) := by
        rw [List.drop_drop]
      have hcount : (buf.length - i + 6) / 7 =
          (buf.length - (i + 7) + 6) / 7 + 1 := by omega
      simp only [getD_drop_zero, hdd, hcount]
      rw [Prod.mk.injEq]
      constructor
      · norm_num
      · ring
    · rw [if_neg hlt]
      have hd : buf.drop i = [] := List.drop_eq_nil_of_le (by omega)
      rw [hd, seven_chunk_words]
      have hz : (buf.length - i + 6) / 7 = 0 := by omega
      simp [hz]

/-- The C zero-fill loop writes one zero word every 4 bytes from its
start offset up to the slot end. -/
theorem infoframe_zero_fill_spec :
    ∀ (fuel reg next : Nat), next - reg ≤ fuel →
      infoframe_zero_fill_go fuel reg next = zero_words_spec reg next := by
  intro fuel
  induction fuel with
  | zero =>
    intro reg next h
    have hz : (next - reg + 3) / 4 = 0 := by omega
    rw [infoframe_zero_fill_go, zero_words_spec]
    simp [hz]
  | succ fuel ih =>
    intro reg next h
    rw [infoframe_zero_fill_go]
    by_cases hlt : reg < next
    · rw [if_pos hlt, ih (reg + 4) next (by omega)]
      rw [zero_words_spec, zero_words_spec]
      have hcount : (next - reg + 3) / 4 = (next - (reg + 4) + 3) / 4 + 1 := by
        omega
      rw [hcount, List.range_succ_eq_map, List.map_cons, List.map_map]
      simp only [Nat.mul_zero, Nat.add_zero]
      congr 1
      apply List.map_congr_left
      intro a _
      simp only [Function.comp_apply]
      rw [Prod.mk.injEq]
      exact ⟨by omega, rfl⟩
    · rw [if_neg hlt, zero_words_spec]
      have hz : (next - reg + 3) / 4 = 0 := by omega
      simp [hz]

/-- C6: an infoframe write first disables the slot and polls up to 100
time units for the active bit to clear; on timeout it returns with no
RAM writes and the enable bit left clear; otherwise it writes the
payload packed 7 bytes per 8-byte register pair, zero-fills the rest
of the slot, sets the enable bit and polls up to 100 time units for
the active bit to assert, a timeout there being logged only. -/
theorem C6_infoframe_write_protocol
    (pid : Nat) (buf : List Nat) (init : Bool) (ss se : Nat → Bool) :
    (wait_for (fun t => !(ss t)) 100 = false →
      vc4_hdmi_write_infoframe pid (some buf) init ss se =
        ⟨[], false, true, false⟩) ∧
    (wait_for (fun t => !(ss t)) 100 = true →
      vc4_hdmi_write_infoframe pid (some buf) init ss se =
        ⟨infoframe_slot_image pid buf, true, true, !wait_for se 100⟩) := by
  constructor
  · intro h
    simp [vc4_hdmi_write_infoframe, h]
  · intro h
    simp only [vc4_hdmi_write_infoframe, h, Bool.not_true, Bool.false_eq_true,
      if_false]
    rw [infoframe_pack_go_spec buf.length buf 0
      (VC4_HDMI_PACKET_STRIDE * pid) (by omega)]
    rw [infoframe_zero_fill, infoframe_zero_fill_spec _ _ _ (le_refl _)]
    simp [infoframe_slot_image]

/-- Witness for C6: a successful 3-byte write produces the packed
slot image with the enable bit set; a stuck-active slot aborts with
nothing written. -/
theorem C6_infoframe_write_protocol_witness :
    (wait_for (fun t => !((fun _ : Nat => false) t)) 100 = true) ∧
    vc4_hdmi_write_infoframe 0 (some [130, 2, 13]) true
        (fun _ => false) (fun _ => true) =
      ⟨infoframe_slot_image 0 [130, 2, 13], true, true,
        !wait_for (fun _ => true) 100⟩ ∧
    (wait_for (fun t => !((fun _ : Nat => true) t)) 100 = false) ∧
    vc4_hdmi_write_infoframe 1 (some [1]) true
        (fun _ => true) (fun _ => false) =
      ⟨[], false, true, false⟩ := by
  refine ⟨by decide, ?_, by decide, ?_⟩
  · exact (C6_infoframe_write_protocol 0 [130, 2, 13] true
      (fun _ => false) (fun _ => true)).2 (by decide)
  · exact (C6_infoframe_write_protocol 1 [1] true
      (fun _ => true) (fun _ => false)).1 (by decide)

/-- C7 counterexample: on the all-success run at 148.5 MHz the code's
step order ends with scheduler-enable followed by timing programming;
the claimed order (timing programming before scheduler-enable) is
refuted. -/
theorem C7_counterexample_order :
    (vc4_hdmi_encoder_pre_crtc_configure cfg_all_ok 148500000).2 =
      [.set_hsm_min_rate 149985000, .pm_get, .set_pixel_rate 148500000,
       .enable_pixel, .set_bvb_min_rate 75000000, .enable_bvb,
       .phy_init, .sched_enable_manual_fmt, .program_timings] ∧
    (vc4_hdmi_encoder_pre_crtc_configure cfg_all_ok 148500000).2 ≠
      [.set_hsm_min_rate 149985000, .pm_get, .set_pixel_rate 148500000,
       .enable_pixel, .set_bvb_min_rate 75000000, .enable_bvb,
       .phy_init, .program_timings, .sched_enable_manual_fmt] := by
  constructor
  · decide
  · decide

/-- C7 (amended): the configure path performs hsm-minimum-rate,
power acquisition, pixel-clock set + enable, tiered bvb minimum rate
+ enable, PHY init, scheduler-enable in manual-format mode, then
timing programming, in that fixed order; a failure at any fallible
step unwinds exactly the acquired resources in reverse order; and the
final resource state is all-off on failure and all-on on success. -/
theorem C7_sequence_amended :
    (∀ (o : CfgOracle) (tmds : Nat),
      vc4_hdmi_encoder_pre_crtc_configure o tmds =
        pre_crtc_configure_spec o tmds) ∧
    (∀ (o : CfgOracle) (tmds : Nat),
      (vc4_hdmi_encoder_pre_crtc_configure o tmds).1 = ⟨false, false, false⟩ ∨
      (vc4_hdmi_encoder_pre_crtc_configure o tmds).1 = ⟨true, true, true⟩) := by
  constructor
  · intro o tmds
    obtain ⟨h1, h2, h3, h4, h5, h6⟩ := o
    cases h1 <;> cases h2 <;> cases h3 <;> cases h4 <;> cases h5 <;>
      cases h6 <;> rfl
  · intro o tmds
    obtain ⟨h1, h2, h3, h4, h5, h6⟩ := o
    cases h1 <;> cases h2 <;> cases h3 <;> cases h4 <;> cases h5 <;>
      cases h6 <;> first | exact Or.inl rfl | exact Or.inr rfl

end VC4
